import Mathlib

/-!
Shallow embedding of `src/main.py` (GitLab to GOGS backup script).

The network and the git transport are modelled as environments passed in
explicitly: every HTTP call is represented by the status code the server
answers with, and every git operation (clone, remote surgery, push) by an
`Except` value saying whether the underlying command raised.  Python
exceptions become `Except` error values; `sys.exit(1)` becomes the numeric
exit status computed by `runExit` / `mainExit`.
-/

deriving instance DecidableEq for Except

namespace SpeleoBackup

/-- Model of Python `list.isPrefixOf`-style check used by `str.replace`:
`leadsWith pat l` is true when `pat` is an initial segment of `l`. -/
def leadsWith : List Char → List Char → Bool
  | [], _ => true
  | _ :: _, [] => false
  | p :: ps, c :: cs => p == c && leadsWith ps cs

/-- `occursIn pat l` is true when `pat` occurs as a contiguous subsequence
of `l` (Python `pat in s`). -/
def occursIn (pat : List Char) : List Char → Bool
  | [] => leadsWith pat []
  | c :: rest => leadsWith pat (c :: rest) || occursIn pat rest

/-- One pass of Python `str.replace`: scan left to right, replace every
non-overlapping occurrence of the (nonempty) pattern `p :: ps` by `rep`.
Structural recursion on a fuel counter so that the function reduces inside
the kernel; every step consumes at least one character and at most one
fuel unit, so fuel equal to the input length always suffices. -/
def replaceGo (p : Char) (ps rep : List Char) : Nat → List Char → List Char
  | 0, l => l
  | _ + 1, [] => []
  | fuel + 1, c :: rest =>
    if leadsWith (p :: ps) (c :: rest) then
      rep ++ replaceGo p ps rep fuel (rest.drop ps.length)
    else
      c :: replaceGo p ps rep fuel rest

/-- Python `s.replace(pat, rep)` for the nonempty patterns this script uses
(the pattern is always the literal string https-colon-slash-slash; the
empty-pattern branch never arises and is mapped to the identity). -/
def pyReplace (s pat rep : String) : String :=
  match pat.data with
  | [] => s
  | p :: ps => ⟨replaceGo p ps rep.data s.data.length s.data⟩

/-- Python `s.rstrip(ch)`: drop every trailing occurrence of `ch`. -/
def rstripChar (ch : Char) (s : String) : String :=
  ⟨(s.data.reverse.dropWhile (fun c => c == ch)).reverse⟩

/-- The configuration held by `GitLabToGOGSBackup` after `__init__` ran:
tokens, destination coordinates and the optional organization name (empty
string means personal repositories, matching the Python falsiness test). -/
structure Config where
  gitlab_token : String
  gitlab_group_id : String
  gogs_url : String
  gogs_username : String
  gogs_token : String
  gogs_org : String
deriving DecidableEq, Repr

/-- A GitLab project as returned by `gl.projects.get`: the fields of the
source object that `main.py` reads. -/
structure Project where
  id : Nat
  name : String
  path_with_namespace : String
  description : Option String
  visibility : String
  http_url_to_repo : String
deriving DecidableEq, Repr

/-- The JSON body `_create_gogs_repo` posts to GOGS. -/
structure RepoData where
  name : String
  description : String
  is_private : Bool
deriving DecidableEq, Repr

/-- The body built at the top of `_create_gogs_repo`: name, description
(empty string when the source has none), and private flag derived as
visibility different from public. -/
def mkRepoData (p : Project) : RepoData :=
  { name := p.name
    description := p.description.getD ""
    is_private := p.visibility != "public" }

/-- One HTTP request issued against the GOGS API: method, endpoint under
the API root, and the JSON payload when there is one. -/
structure Request where
  method : String
  endpoint : String
  payload : Option RepoData
deriving DecidableEq, Repr

/-- `requests.Response.raise_for_status`: raises exactly on a 4xx or 5xx
status, returning the status as the error. -/
def raise_for_status (status : Nat) : Except Nat Unit :=
  if 400 ≤ status ∧ status < 600 then .error status else .ok ()

/-- Endpoint used by `_check_gogs_repo_exists`: the organization path form
when an organization is configured, else the user path form. -/
def checkEndpoint (cfg : Config) (repo_name : String) : String :=
  if cfg.gogs_org ≠ "" then
    "/repos/" ++ cfg.gogs_org ++ "/" ++ repo_name
  else
    "/repos/" ++ cfg.gogs_username ++ "/" ++ repo_name

/-- `_check_gogs_repo_exists`: issues one GET on the repository endpoint;
a 2xx answer yields true, a 404 yields false, any other error status is
re-raised.  The returned list records the requests that were issued;
`status` is the answer the environment gives to the GET. -/
def check_gogs_repo_exists (cfg : Config) (repo_name : String) (status : Nat) :
    List Request × Except Nat Bool :=
  let req : Request := { method := "GET", endpoint := checkEndpoint cfg repo_name, payload := none }
  match raise_for_status status with
  | .ok _ => ([req], .ok true)
  | .error s => if s = 404 then ([req], .ok false) else ([req], .error s)

/-- Endpoint used by `_create_gogs_repo`: the organization repos endpoint
when an organization is configured, else the user repos endpoint. -/
def createEndpoint (cfg : Config) : String :=
  if cfg.gogs_org ≠ "" then "/org/" ++ cfg.gogs_org ++ "/repos" else "/user/repos"

/-- Result of a creation call: a clean created answer (the response JSON is
opaque to the caller, which discards it), or the minimal handle returned
when the destination answered 409 already-exists. -/
inductive CreateResult where
  | created
  | alreadyExists (name : String)
deriving DecidableEq, Repr

/-- `_create_gogs_repo`: posts the repository body to the scoped creation
endpoint.  A 2xx answer is a clean creation; a 409 is normalized to success
with a minimal handle holding the name; a 404 (logged with organization
context when one is configured) and every other error status are re-raised
to the caller. -/
def create_gogs_repo (cfg : Config) (p : Project) (status : Nat) :
    List Request × Except Nat CreateResult :=
  let req : Request := { method := "POST", endpoint := createEndpoint cfg, payload := some (mkRepoData p) }
  match raise_for_status status with
  | .ok _ => ([req], .ok .created)
  | .error s =>
      if s = 409 then ([req], .ok (.alreadyExists p.name))
      else ([req], .error s)

/-- `_get_gogs_clone_url`: destination clone URL with the username and
token substituted into every occurrence of the https prefix of the base
URL, followed by the scoped repository path. -/
def get_gogs_clone_url (cfg : Config) (repo_name : String) : String :=
  let repo_path :=
    if cfg.gogs_org ≠ "" then cfg.gogs_org ++ "/" ++ repo_name
    else cfg.gogs_username ++ "/" ++ repo_name
  let gogs_base :=
    pyReplace cfg.gogs_url "https://"
      ("https://" ++ cfg.gogs_username ++ ":" ++ cfg.gogs_token ++ "@")
  gogs_base ++ "/" ++ repo_path ++ ".git"

/-- The authenticated source clone URL built inside `_backup_repository`:
the oauth2 token substituted into every occurrence of the https prefix of
the project clone endpoint. -/
def get_gitlab_clone_url (cfg : Config) (p : Project) : String :=
  pyReplace p.http_url_to_repo "https://"
    ("https://oauth2:" ++ cfg.gitlab_token ++ "@")

/-- The error value a failed transfer propagates upward: a git command
error (clone, remote surgery or push) carrying the message, or a requests
HTTP error carrying the status code. -/
inductive BackupError where
  | git (msg : String)
  | http (status : Nat)
deriving DecidableEq, Repr

/-- Observable events of one `_backup_repository` call, in order: the
temporary directory lifecycle, the git transport calls and the GOGS API
calls. -/
inductive Event where
  | acquire
  | gitClone (url : String)
  | apiCall (r : Request)
  | gitDeleteRemote (name : String)
  | gitAddRemote (name : String) (url : String)
  | gitPush
  | release
deriving DecidableEq, Repr

/-- What the environment does for the fallible steps of one transfer: the
outcome of the mirror clone, the statuses the GOGS API answers to the
existence GET and the creation POST, whether the cloned repo lists an
origin remote, the outcome of the remote delete/add pair, and the outcome
of the mirror push. -/
structure TransferEnv where
  clone_result : Except String Unit
  exists_status : Nat
  create_status : Nat
  has_origin : Bool
  remote_result : Except String Unit
  push_result : Except String Unit
deriving DecidableEq, Repr

/-- Body of the with-block of `_backup_repository`: clone the source as a
mirror, check existence at the destination and create the repository when
absent, delete any origin remote, add origin pointing at the authenticated
destination URL, and mirror-push.  Any step failing ends the body with
that single error; the events performed up to that point are recorded. -/
def backup_body (cfg : Config) (p : Project) (env : TransferEnv) :
    List Event × Except BackupError Unit :=
  let cloneEv : Event := .gitClone (get_gitlab_clone_url cfg p)
  match env.clone_result with
  | .error e => ([cloneEv], .error (.git e))
  | .ok _ =>
    let checkEvs := (check_gogs_repo_exists cfg p.name env.exists_status).1.map Event.apiCall
    match (check_gogs_repo_exists cfg p.name env.exists_status).2 with
    | .error s => ([cloneEv] ++ checkEvs, .error (.http s))
    | .ok repoOnGogs =>
      let createEvs :=
        if repoOnGogs then []
        else (create_gogs_repo cfg p env.create_status).1.map Event.apiCall
      let createRes : Except Nat Unit :=
        if repoOnGogs then .ok ()
        else (create_gogs_repo cfg p env.create_status).2.map fun _ => ()
      match createRes with
      | .error s => ([cloneEv] ++ checkEvs ++ createEvs, .error (.http s))
      | .ok _ =>
        let deleteEvs := if env.has_origin then [Event.gitDeleteRemote "origin"] else []
        let addEv : Event := .gitAddRemote "origin" (get_gogs_clone_url cfg p.name)
        match env.remote_result with
        | .error e =>
            ([cloneEv] ++ checkEvs ++ createEvs ++ deleteEvs ++ [addEv], .error (.git e))
        | .ok _ =>
          match env.push_result with
          | .error e =>
              ([cloneEv] ++ checkEvs ++ createEvs ++ deleteEvs ++ [addEv, .gitPush],
               .error (.git e))
          | .ok _ =>
              ([cloneEv] ++ checkEvs ++ createEvs ++ deleteEvs ++ [addEv, .gitPush],
               .ok ())

/-- `_backup_repository`: the body runs inside a TemporaryDirectory
with-block, so the workspace acquire precedes everything and the release
follows everything on every path, success or failure; the try/except
blocks only log and re-raise, so the body error propagates unchanged. -/
def backup_repository (cfg : Config) (p : Project) (env : TransferEnv) :
    List Event × Except BackupError Unit :=
  (Event.acquire :: (backup_body cfg p env).1 ++ [Event.release],
   (backup_body cfg p env).2)

/-- What the environment does for one enumerated project: the result of
the full-detail fetch `gl.projects.get` and the transfer environment for
the subsequent `_backup_repository` call. -/
structure ProjectRun where
  fetch : Except String Project
  env : TransferEnv
deriving DecidableEq, Repr

/-- The iteration loop of `run`: the full-detail fetch sits outside the
per-project try block, so a fetch error aborts the whole loop; a transfer
error is caught, recorded in the failed list with the project name, and
iteration continues.  Returns the successful-names list and the failed
name/error list in iteration order. -/
def runLoop (cfg : Config) :
    List ProjectRun → Except String (List String × List (String × BackupError))
  | [] => .ok ([], [])
  | pr :: rest =>
    match pr.fetch with
    | .error e => .error e
    | .ok p =>
      match runLoop cfg rest with
      | .error e => .error e
      | .ok (succ, failed) =>
        match (backup_repository cfg p pr.env).2 with
        | .ok _ => .ok (p.name :: succ, failed)
        | .error e => .ok (succ, (p.name, e) :: failed)

/-- Terminal state of one `run` call: a completed pass with its summary
lists, or an abort caused by an enumeration error, a detail-fetch error or
any other exception reaching the outer try of `run`. -/
inductive RunResult where
  | completed (successful : List String) (failed : List (String × BackupError))
  | aborted (msg : String)
deriving DecidableEq, Repr

/-- `run`: enumerate the group (an enumeration failure aborts), then drive
the loop; a loop abort (detail-fetch failure) is caught by the outer
try of `run` and also ends in the aborted state. -/
def run (cfg : Config) (enum : Except String (List ProjectRun)) : RunResult :=
  match enum with
  | .error e => .aborted e
  | .ok prs =>
    match runLoop cfg prs with
    | .error e => .aborted e
    | .ok (succ, failed) => .completed succ failed

/-- Exit status contributed by `run`: `sys.exit(1)` on an abort or on a
non-empty failed list, otherwise a normal return (status 0 after `main`
completes). -/
def runExit : RunResult → Nat
  | .aborted _ => 1
  | .completed _ failed => if failed = [] then 0 else 1

/-- Fatal errors raised during `__init__`: missing environment variables,
a GitLab authentication failure, or the startup organization pre-flight
failing (404, 403, or any other HTTP error). -/
inductive InitError where
  | missingVars (vars : List String)
  | authFailed (msg : String)
  | orgNotFound (org : String)
  | orgForbidden (org : String)
  | orgHttpError (status : Nat)
deriving DecidableEq, Repr

/-- The raw environment variables the script reads (empty string models an
unset variable, matching `os.environ.get` with default empty). -/
structure RawEnv where
  gitlab_token : String
  gitlab_group_id : String
  gogs_instance_url : String
  gogs_username : String
  gogs_access_token : String
  gogs_org : String
deriving DecidableEq, Repr

/-- `_validate_config`: collect the required variables that are unset and
raise when any is missing; on success the GOGS URL loses its trailing
slashes. -/
def validate_config (raw : RawEnv) : Except InitError Config :=
  let missing :=
    (if raw.gitlab_token = "" then ["GITLAB_TOKEN"] else []) ++
    (if raw.gitlab_group_id = "" then ["GITLAB_GROUP_ID"] else []) ++
    (if raw.gogs_instance_url = "" then ["GOGS_INSTANCE_URL"] else []) ++
    (if raw.gogs_username = "" then ["GOGS_USERNAME"] else []) ++
    (if raw.gogs_access_token = "" then ["GOGS_ACCESS_TOKEN"] else [])
  if missing ≠ [] then .error (.missingVars missing)
  else
    .ok
      { gitlab_token := raw.gitlab_token
        gitlab_group_id := raw.gitlab_group_id
        gogs_url := rstripChar '/' raw.gogs_instance_url
        gogs_username := raw.gogs_username
        gogs_token := raw.gogs_access_token
        gogs_org := raw.gogs_org }

/-- `_verify_gogs_org_exists`: a 404 or 403 on the organization endpoint
becomes a dedicated fatal error; any other HTTP error is re-raised; a
success answer passes. -/
def verify_gogs_org_exists (cfg : Config) (status : Nat) : Except InitError Unit :=
  match raise_for_status status with
  | .ok _ => .ok ()
  | .error s =>
      if s = 404 then .error (.orgNotFound cfg.gogs_org)
      else if s = 403 then .error (.orgForbidden cfg.gogs_org)
      else .error (.orgHttpError s)

/-- `__init__`: validate the configuration, authenticate against GitLab,
and when an organization is configured run the startup pre-flight check.
Any failure is fatal before a single project is touched. -/
def initBackup (raw : RawEnv) (auth : Except String Unit) (orgStatus : Nat) :
    Except InitError Config :=
  match validate_config raw with
  | .error e => .error e
  | .ok cfg =>
    match auth with
    | .error e => .error (.authFailed e)
    | .ok _ =>
      if cfg.gogs_org ≠ "" then
        match verify_gogs_org_exists cfg orgStatus with
        | .error e => .error e
        | .ok _ => .ok cfg
      else .ok cfg

/-- `main`: any exception escaping construction or `run` yields exit
status 1; otherwise the status is the one `run` produced (0 on a clean
pass, 1 on a recorded failure or an abort inside `run`). -/
def mainExit (raw : RawEnv) (auth : Except String Unit) (orgStatus : Nat)
    (enum : Except String (List ProjectRun)) : Nat :=
  match initBackup raw auth orgStatus with
  | .error _ => 1
  | .ok cfg => runExit (run cfg enum)

/-- Whether a project run ends in a recorded per-project failure (only
meaningful when its detail fetch succeeds). -/
def transferFailed (cfg : Config) (pr : ProjectRun) : Bool :=
  match pr.fetch with
  | .ok p =>
    match (backup_repository cfg p pr.env).2 with
    | .error _ => true
    | .ok _ => false
  | .error _ => true

/-- Name of the fetched project (placeholder when the fetch failed). -/
def fetchName (pr : ProjectRun) : String :=
  match pr.fetch with
  | .ok p => p.name
  | .error _ => ""

/-- The error recorded for a failed project run (placeholder when the run
did not fail; only used under the `transferFailed` filter). -/
def transferError (cfg : Config) (pr : ProjectRun) : BackupError :=
  match pr.fetch with
  | .ok p =>
    match (backup_repository cfg p pr.env).2 with
    | .error e => e
    | .ok _ => .git ""
  | .error _ => .git ""

/-- The destination base URL after credential substitution, as built
inside `_get_gogs_clone_url`. -/
def gogsAuthBase (cfg : Config) : String :=
  pyReplace cfg.gogs_url "https://"
    ("https://" ++ cfg.gogs_username ++ ":" ++ cfg.gogs_token ++ "@")

/-! Concrete fixtures used by witnesses and counterexamples. -/

/-- A configuration with no destination organization (personal scope). -/
def cfgUser : Config :=
  { gitlab_token := "gt"
    gitlab_group_id := "42"
    gogs_url := "https://gogs.example"
    gogs_username := "u"
    gogs_token := "t"
    gogs_org := "" }

/-- A configuration with a destination organization configured. -/
def cfgOrg : Config :=
  { gitlab_token := "gt"
    gitlab_group_id := "42"
    gogs_url := "https://gogs.example"
    gogs_username := "u"
    gogs_token := "t"
    gogs_org := "theorg" }

/-- A public project without description. -/
def projA : Project :=
  { id := 1
    name := "alpha"
    path_with_namespace := "grp/alpha"
    description := none
    visibility := "public"
    http_url_to_repo := "https://gl.example/grp/alpha.git" }

/-- A private project with a description. -/
def projB : Project :=
  { id := 2
    name := "beta"
    path_with_namespace := "grp/beta"
    description := some "second project"
    visibility := "private"
    http_url_to_repo := "https://gl.example/grp/beta.git" }

/-- A third public project. -/
def projC : Project :=
  { id := 3
    name := "gamma"
    path_with_namespace := "grp/gamma"
    description := none
    visibility := "public"
    http_url_to_repo := "https://gl.example/grp/gamma.git" }

/-- Environment of a fully successful transfer of an absent repository. -/
def envHappyAbsent : TransferEnv :=
  { clone_result := .ok ()
    exists_status := 404
    create_status := 201
    has_origin := true
    remote_result := .ok ()
    push_result := .ok () }

/-- Environment whose mirror clone fails. -/
def envCloneFail : TransferEnv :=
  { clone_result := .error "clone failed"
    exists_status := 404
    create_status := 201
    has_origin := true
    remote_result := .ok ()
    push_result := .ok () }

/-- Environment where the creation POST is answered 404 (missing scope). -/
def envOrg404 : TransferEnv :=
  { clone_result := .ok ()
    exists_status := 404
    create_status := 404
    has_origin := true
    remote_result := .ok ()
    push_result := .ok () }

/-- A complete set of environment variables whose validation yields
`cfgUser` (note the trailing slash stripped from the URL). -/
def rawGood : RawEnv :=
  { gitlab_token := "gt"
    gitlab_group_id := "42"
    gogs_instance_url := "https://gogs.example/"
    gogs_username := "u"
    gogs_access_token := "t"
    gogs_org := "" }

/-- A configuration whose destination base URL does not begin with the
https prefix but contains it in the middle. -/
def cfgWeird : Config :=
  { gitlab_token := "gt"
    gitlab_group_id := "42"
    gogs_url := "http://https://h"
    gogs_username := "u"
    gogs_token := "sekret"
    gogs_org := "" }

/-- A configuration whose destination base URL is plain http, containing
no https prefix at all. -/
def cfgHttp : Config :=
  { gitlab_token := "gt"
    gitlab_group_id := "42"
    gogs_url := "http://plain.example"
    gogs_username := "u"
    gogs_token := "t"
    gogs_org := "" }

/-- A project whose source clone endpoint is plain http. -/
def projHttp : Project :=
  { id := 4
    name := "delta"
    path_with_namespace := "grp/delta"
    description := none
    visibility := "public"
    http_url_to_repo := "http://gl.example/grp/delta.git" }

/-! Helper lemmas shared by the claim theorems. -/

/-- A pattern that occurs nowhere in a list is never replaced, whatever
the fuel. -/
theorem replaceGo_of_not_occursIn (p : Char) (ps rep : List Char) :
    ∀ (fuel : Nat) (l : List Char), occursIn (p :: ps) l = false →
      replaceGo p ps rep fuel l = l := by
  intro fuel
  induction fuel with
  | zero => intro l _; rfl
  | succ n ih =>
    intro l h
    match l with
    | [] => rfl
    | c :: rest =>
      simp only [occursIn, Bool.or_eq_false_iff] at h
      simp only [replaceGo, h.1, Bool.false_eq_true, if_false, List.cons.injEq, true_and]
      exact ih rest h.2

/-- Python replace is the identity when the pattern does not occur in the
subject string. -/
theorem pyReplace_of_not_occursIn (s pat rep : String)
    (h : occursIn pat.data s.data = false) : pyReplace s pat rep = s := by
  unfold pyReplace
  match hp : pat.data with
  | [] => rfl
  | p :: ps =>
    rw [hp] at h
    show String.mk (replaceGo p ps rep.data s.data.length s.data) = s
    rw [replaceGo_of_not_occursIn p ps rep.data s.data.length s.data h]

/-- Interleaving the kept and the dropped elements of a filter recovers a
permutation of the original list. -/
theorem filter_partition_perm {α : Type} (f : α → Bool) (l : List α) :
    ((l.filter fun x => !f x) ++ l.filter f).Perm l := by
  induction l with
  | nil => simp
  | cons a t ih =>
    by_cases hf : f a = true
    · simp only [List.filter_cons, hf, Bool.not_true, if_false, if_true, cond_true]
      exact (List.perm_middle).trans (ih.cons a) |>.symm.symm
    · simp only [Bool.not_eq_true] at hf
      simp only [List.filter_cons, hf, Bool.not_false, cond_true, cond_false]
      exact (ih.cons a)

/-- The existence check issues exactly one GET on the scoped repository
endpoint, whatever the answer is. -/
theorem check_requests (cfg : Config) (n : String) (s : Nat) :
    (check_gogs_repo_exists cfg n s).1 =
      [{ method := "GET", endpoint := checkEndpoint cfg n, payload := none }] := by
  unfold check_gogs_repo_exists
  cases raise_for_status s with
  | ok u => rfl
  | error e => by_cases h : e = 404 <;> simp [h]

/-- The answer of the existence check as a function of the status. -/
theorem check_result (cfg : Config) (n : String) (s : Nat) :
    (check_gogs_repo_exists cfg n s).2 =
      if 400 ≤ s ∧ s < 600 then (if s = 404 then .ok false else .error s)
      else .ok true := by
  unfold check_gogs_repo_exists raise_for_status
  by_cases h : 400 ≤ s ∧ s < 600
  · by_cases h4 : s = 404 <;> simp [h, h4]
  · simp [h]

/-- The creation call issues exactly one POST of the repository body on
the scoped creation endpoint, whatever the answer is. -/
theorem create_requests (cfg : Config) (p : Project) (s : Nat) :
    (create_gogs_repo cfg p s).1 =
      [{ method := "POST", endpoint := createEndpoint cfg, payload := some (mkRepoData p) }] := by
  unfold create_gogs_repo
  cases raise_for_status s with
  | ok u => rfl
  | error e => by_cases h : e = 409 <;> simp [h]

/-- The answer of the creation call as a function of the status. -/
theorem create_result (cfg : Config) (p : Project) (s : Nat) :
    (create_gogs_repo cfg p s).2 =
      if 400 ≤ s ∧ s < 600 then
        (if s = 409 then .ok (.alreadyExists p.name) else .error s)
      else .ok .created := by
  unfold create_gogs_repo raise_for_status
  by_cases h : 400 ≤ s ∧ s < 600
  · by_cases h9 : s = 409 <;> simp [h, h9]
  · simp [h]

/-- No event of the with-block body is a workspace acquire or release:
those two events are produced only by the TemporaryDirectory wrapper. -/
theorem body_no_workspace_events (cfg : Config) (p : Project) (env : TransferEnv) :
    ∀ ev ∈ (backup_body cfg p env).1, ev ≠ Event.acquire ∧ ev ≠ Event.release := by
  intro ev hev
  simp only [backup_body] at hev
  cases hcl : env.clone_result with
  | error e =>
    rw [hcl] at hev
    refine ⟨?_, ?_⟩ <;> rintro rfl <;> simp at hev
  | ok u =>
    rw [hcl] at hev
    rw [check_requests] at hev
    cases hck : (check_gogs_repo_exists cfg p.name env.exists_status).2 with
    | error s =>
      rw [hck] at hev
      refine ⟨?_, ?_⟩ <;> rintro rfl <;> simp at hev
    | ok repoOnGogs =>
      rw [hck] at hev
      rw [create_requests] at hev
      cases hb : repoOnGogs with
      | true =>
        rw [hb] at hev
        simp only [if_true] at hev
        cases hrm : env.remote_result with
        | error e =>
          rw [hrm] at hev
          by_cases ho : env.has_origin <;> simp only [ho, if_true, if_false] at hev <;>
            refine ⟨?_, ?_⟩ <;> rintro rfl <;> simp at hev
        | ok v =>
          cases hps : env.push_result with
          | error e =>
            rw [hrm, hps] at hev
            by_cases ho : env.has_origin <;> simp only [ho, if_true, if_false] at hev <;>
              refine ⟨?_, ?_⟩ <;> rintro rfl <;> simp at hev
          | ok w =>
            rw [hrm, hps] at hev
            by_cases ho : env.has_origin <;> simp only [ho, if_true, if_false] at hev <;>
              refine ⟨?_, ?_⟩ <;> rintro rfl <;> simp at hev
      | false =>
        rw [hb] at hev
        simp only [if_false] at hev
        cases hcr : (create_gogs_repo cfg p env.create_status).2 with
        | error s =>
          rw [hcr] at hev
          refine ⟨?_, ?_⟩ <;> rintro rfl <;> simp [Except.map] at hev
        | ok v =>
          rw [hcr] at hev
          simp only [Except.map] at hev
          cases hrm : env.remote_result with
          | error e =>
            rw [hrm] at hev
            by_cases ho : env.has_origin <;> simp only [ho, if_true, if_false] at hev <;>
              refine ⟨?_, ?_⟩ <;> rintro rfl <;> simp at hev
          | ok w =>
            cases hps : env.push_result with
            | error e =>
              rw [hrm, hps] at hev
              by_cases ho : env.has_origin <;> simp only [ho, if_true, if_false] at hev <;>
                refine ⟨?_, ?_⟩ <;> rintro rfl <;> simp at hev
            | ok x =>
              rw [hrm, hps] at hev
              by_cases ho : env.has_origin <;> simp only [ho, if_true, if_false] at hev <;>
                refine ⟨?_, ?_⟩ <;> rintro rfl <;> simp at hev

/-- Unfolding `runLoop` when every detail fetch succeeds: the loop
completes, the successful names are the non-failing projects in order, and
the failed pairs are the failing projects with their errors in order. -/
theorem runLoop_of_fetches_ok (cfg : Config) (prs : List ProjectRun)
    (h : ∀ pr ∈ prs, pr.fetch.isOk = true) :
    runLoop cfg prs = .ok
      (((prs.filter fun pr => !transferFailed cfg pr).map fetchName),
       ((prs.filter fun pr => transferFailed cfg pr).map
          fun pr => (fetchName pr, transferError cfg pr))) := by
  induction prs with
  | nil => rfl
  | cons pr rest ih =>
    have hpr : pr.fetch.isOk = true := h pr (by simp)
    obtain ⟨p, hfetch⟩ : ∃ p, pr.fetch = .ok p := by
      cases hf : pr.fetch with
      | ok p => exact ⟨p, rfl⟩
      | error e => rw [hf] at hpr; simp [Except.isOk, Except.toBool] at hpr
    have hrest := ih (fun q hq => h q (by simp [hq]))
    cases hb : (backup_repository cfg p pr.env).2 with
    | ok u =>
      have hfail : transferFailed cfg pr = false := by
        simp [transferFailed, hfetch, hb]
      simp [runLoop, hfetch, hrest, hb, List.filter_cons, hfail, fetchName]
    | error e =>
      have hfail : transferFailed cfg pr = true := by
        simp [transferFailed, hfetch, hb]
      have herr : transferError cfg pr = e := by
        simp [transferError, hfetch, hb]
      simp [runLoop, hfetch, hrest, hb, List.filter_cons, hfail, fetchName, herr]

/-! Claim theorems. -/

/-- Claim C8: for every repository name, the destination existence check
returns false exactly when the destination responds 404, returns true on a
success response, and propagates any other error response (4xx or 5xx) as
an error to the calling operation; the check issues a single GET and no
mutating call. -/
theorem claim_C8_exists_check (cfg : Config) (name : String) (status : Nat) :
    (check_gogs_repo_exists cfg name status).1 =
      [{ method := "GET", endpoint := checkEndpoint cfg name, payload := none }] ∧
    ((check_gogs_repo_exists cfg name status).2 = .ok false ↔ status = 404) ∧
    (status < 400 → (check_gogs_repo_exists cfg name status).2 = .ok true) ∧
    (400 ≤ status → status < 600 → status ≠ 404 →
      (check_gogs_repo_exists cfg name status).2 = .error status) := by
  refine ⟨check_requests cfg name status, ?_, ?_, ?_⟩
  · rw [check_result]
    by_cases h : 400 ≤ status ∧ status < 600
    · by_cases h4 : status = 404 <;> simp [h, h4]
    · have : status ≠ 404 := by omega
      simp [h, this]
  · intro hlt
    have : ¬(400 ≤ status ∧ status < 600) := by omega
    rw [check_result]
    simp [this]
  · intro h1 h2 h4
    rw [check_result]
    simp [h1, h2, h4]

/-- Witness for C8, at statuses 404, 200 and 500. -/
theorem claim_C8_exists_check_witness :
    (check_gogs_repo_exists cfgUser "alpha" 404).2 = .ok false ∧
    (check_gogs_repo_exists cfgUser "alpha" 200).2 = .ok true ∧
    (check_gogs_repo_exists cfgUser "alpha" 500).2 = .error 500 :=
  ⟨(claim_C8_exists_check cfgUser "alpha" 404).2.1.mpr rfl,
   (claim_C8_exists_check cfgUser "alpha" 200).2.2.1 (by decide),
   (claim_C8_exists_check cfgUser "alpha" 500).2.2.2 (by decide) (by decide) (by decide)⟩

/-- Claim C7: within one run, configuring a destination organization makes
the existence check, the creation request and the clone URL all use the
organization path form, and leaving it empty makes all three use the user
path form; the two forms are never mixed for one configuration. -/
theorem claim_C7_scope_consistency (cfg : Config) (name : String) :
    (cfg.gogs_org ≠ "" →
      checkEndpoint cfg name = "/repos/" ++ cfg.gogs_org ++ "/" ++ name ∧
      createEndpoint cfg = "/org/" ++ cfg.gogs_org ++ "/repos" ∧
      get_gogs_clone_url cfg name =
        gogsAuthBase cfg ++ "/" ++ cfg.gogs_org ++ "/" ++ name ++ ".git") ∧
    (cfg.gogs_org = "" →
      checkEndpoint cfg name = "/repos/" ++ cfg.gogs_username ++ "/" ++ name ∧
      createEndpoint cfg = "/user/repos" ∧
      get_gogs_clone_url cfg name =
        gogsAuthBase cfg ++ "/" ++ cfg.gogs_username ++ "/" ++ name ++ ".git") := by
  constructor <;> intro h <;>
    simp [checkEndpoint, createEndpoint, get_gogs_clone_url, gogsAuthBase, h,
      String.append_assoc]

/-- Witness for C7, on an organization configuration and a personal one. -/
theorem claim_C7_scope_consistency_witness :
    checkEndpoint cfgOrg "alpha" = "/repos/theorg/alpha" ∧
    createEndpoint cfgOrg = "/org/theorg/repos" ∧
    get_gogs_clone_url cfgOrg "alpha" = gogsAuthBase cfgOrg ++ "/theorg/alpha.git" ∧
    checkEndpoint cfgUser "alpha" = "/repos/u/alpha" ∧
    createEndpoint cfgUser = "/user/repos" ∧
    get_gogs_clone_url cfgUser "alpha" = gogsAuthBase cfgUser ++ "/u/alpha.git" := by
  have ho := (claim_C7_scope_consistency cfgOrg "alpha").1 (by decide)
  have hu := (claim_C7_scope_consistency cfgUser "alpha").2 rfl
  refine ⟨ho.1, ho.2.1, ?_, hu.1, hu.2.1, ?_⟩
  · rw [ho.2.2]; rfl
  · rw [hu.2.2]; rfl

/-- Claim C4: a creation call answered 409 is treated as success and
returns a minimal handle holding the name, and the whole transfer behaves
exactly as if the creation had been answered with a clean created
response: identical event trace and identical result. -/
theorem claim_C4_conflict_idempotent (cfg : Config) (p : Project) (env : TransferEnv) :
    (create_gogs_repo cfg p 409).2 = .ok (.alreadyExists p.name) ∧
    backup_repository cfg p { env with create_status := 409 } =
      backup_repository cfg p { env with create_status := 201 } := by
  constructor
  · rw [create_result]; simp
  · unfold backup_repository backup_body
    cases hcl : env.clone_result with
    | error e => simp [hcl]
    | ok u =>
      simp only [hcl]
      cases hck : (check_gogs_repo_exists cfg p.name env.exists_status).2 with
      | error s => simp [hck]
      | ok repoOnGogs =>
        cases repoOnGogs with
        | true => simp [hck]
        | false =>
          simp [hck, check_requests, create_requests, create_result, Except.map]

/-- Claim C9: the scratch workspace of one transfer is acquired first and
released last on every exit path, success or failure, and exactly once:
its lifetime is scoped to that single transfer. -/
theorem claim_C9_workspace_released (cfg : Config) (p : Project) (env : TransferEnv) :
    ∃ body res,
      backup_repository cfg p env = (Event.acquire :: body ++ [Event.release], res) ∧
      Event.acquire ∉ body ∧ Event.release ∉ body := by
  refine ⟨(backup_body cfg p env).1, (backup_body cfg p env).2, rfl, ?_, ?_⟩
  · intro hmem
    exact (body_no_workspace_events cfg p env _ hmem).1 rfl
  · intro hmem
    exact (body_no_workspace_events cfg p env _ hmem).2 rfl

/-- Claim C6: the per-repository transfer follows the fixed ordered
procedure (mirror clone, existence check, creation when absent with name,
description defaulted to empty and private flag derived from visibility,
remote removal and re-registration at the authenticated destination URL,
mirror push), and the failure of any step aborts the remaining steps and
surfaces as a single error value. -/
theorem claim_C6_transfer_procedure (cfg : Config) (p : Project) (env : TransferEnv) :
    (mkRepoData p =
      { name := p.name
        description := p.description.getD ""
        is_private := p.visibility != "public" }) ∧
    (env.clone_result = .ok () → env.exists_status = 404 → env.create_status < 400 →
      env.remote_result = .ok () → env.push_result = .ok () →
      backup_repository cfg p env =
        (Event.acquire :: Event.gitClone (get_gitlab_clone_url cfg p) ::
           Event.apiCall { method := "GET", endpoint := checkEndpoint cfg p.name, payload := none } ::
           Event.apiCall { method := "POST", endpoint := createEndpoint cfg, payload := some (mkRepoData p) } ::
           ((if env.has_origin then [Event.gitDeleteRemote "origin"] else []) ++
            [Event.gitAddRemote "origin" (get_gogs_clone_url cfg p.name), Event.gitPush,
             Event.release]),
         .ok ())) ∧
    (env.clone_result = .ok () → env.exists_status < 400 →
      env.remote_result = .ok () → env.push_result = .ok () →
      backup_repository cfg p env =
        (Event.acquire :: Event.gitClone (get_gitlab_clone_url cfg p) ::
           Event.apiCall { method := "GET", endpoint := checkEndpoint cfg p.name, payload := none } ::
           ((if env.has_origin then [Event.gitDeleteRemote "origin"] else []) ++
            [Event.gitAddRemote "origin" (get_gogs_clone_url cfg p.name), Event.gitPush,
             Event.release]),
         .ok ())) ∧
    (∀ e, env.clone_result = .error e →
      backup_repository cfg p env =
        ([Event.acquire, Event.gitClone (get_gitlab_clone_url cfg p), Event.release],
         .error (.git e))) ∧
    (env.clone_result = .ok () → 400 ≤ env.exists_status → env.exists_status < 600 →
      env.exists_status ≠ 404 →
      backup_repository cfg p env =
        ([Event.acquire, Event.gitClone (get_gitlab_clone_url cfg p),
          Event.apiCall { method := "GET", endpoint := checkEndpoint cfg p.name, payload := none },
          Event.release],
         .error (.http env.exists_status))) ∧
    (env.clone_result = .ok () → env.exists_status = 404 → 400 ≤ env.create_status →
      env.create_status < 600 → env.create_status ≠ 409 →
      backup_repository cfg p env =
        ([Event.acquire, Event.gitClone (get_gitlab_clone_url cfg p),
          Event.apiCall { method := "GET", endpoint := checkEndpoint cfg p.name, payload := none },
          Event.apiCall { method := "POST", endpoint := createEndpoint cfg, payload := some (mkRepoData p) },
          Event.release],
         .error (.http env.create_status))) ∧
    (∀ e, env.clone_result = .ok () → env.exists_status = 404 → env.create_status < 400 →
      env.remote_result = .error e →
      backup_repository cfg p env =
        (Event.acquire :: Event.gitClone (get_gitlab_clone_url cfg p) ::
           Event.apiCall { method := "GET", endpoint := checkEndpoint cfg p.name, payload := none } ::
           Event.apiCall { method := "POST", endpoint := createEndpoint cfg, payload := some (mkRepoData p) } ::
           ((if env.has_origin then [Event.gitDeleteRemote "origin"] else []) ++
            [Event.gitAddRemote "origin" (get_gogs_clone_url cfg p.name), Event.release]),
         .error (.git e))) ∧
    (∀ e, env.clone_result = .ok () → env.exists_status = 404 → env.create_status < 400 →
      env.remote_result = .ok () → env.push_result = .error e →
      backup_repository cfg p env =
        (Event.acquire :: Event.gitClone (get_gitlab_clone_url cfg p) ::
           Event.apiCall { method := "GET", endpoint := checkEndpoint cfg p.name, payload := none } ::
           Event.apiCall { method := "POST", endpoint := createEndpoint cfg, payload := some (mkRepoData p) } ::
           ((if env.has_origin then [Event.gitDeleteRemote "origin"] else []) ++
            [Event.gitAddRemote "origin" (get_gogs_clone_url cfg p.name), Event.gitPush,
             Event.release]),
         .error (.git e))) := by
  refine ⟨rfl, ?_, ?_, ?_, ?_, ?_, ?_, ?_⟩
  · intro h1 h2 h3 h4 h5
    have hc : ¬(400 ≤ env.create_status ∧ env.create_status < 600) := by omega
    simp [backup_repository, backup_body, h1, h2, h4, h5, check_requests, check_result,
      create_requests, create_result, hc, Except.map]
  · intro h1 h2 h4 h5
    have he : ¬(400 ≤ env.exists_status ∧ env.exists_status < 600) := by omega
    simp [backup_repository, backup_body, h1, h4, h5, check_requests, check_result, he]
  · intro e h1
    simp [backup_repository, backup_body, h1]
  · intro h1 h2 h3 h4
    simp [backup_repository, backup_body, h1, h2, h3, h4, check_requests, check_result]
  · intro h1 h2 h3 h4 h5
    simp [backup_repository, backup_body, h1, h2, h3, h4, h5, check_requests, check_result,
      create_requests, create_result, Except.map]
  · intro e h1 h2 h3 h4
    have hc : ¬(400 ≤ env.create_status ∧ env.create_status < 600) := by omega
    simp [backup_repository, backup_body, h1, h2, h4, check_requests, check_result,
      create_requests, create_result, hc, Except.map]
  · intro e h1 h2 h3 h4 h5
    have hc : ¬(400 ≤ env.create_status ∧ env.create_status < 600) := by omega
    simp [backup_repository, backup_body, h1, h2, h4, h5, check_requests, check_result,
      create_requests, create_result, hc, Except.map]

/-- Witness for C6: the full successful trace on a concrete project with
an absent destination repository. -/
theorem claim_C6_transfer_procedure_witness :
    backup_repository cfgUser projA envHappyAbsent =
      (Event.acquire :: Event.gitClone (get_gitlab_clone_url cfgUser projA) ::
         Event.apiCall { method := "GET", endpoint := checkEndpoint cfgUser projA.name, payload := none } ::
         Event.apiCall { method := "POST", endpoint := createEndpoint cfgUser, payload := some (mkRepoData projA) } ::
         ((if envHappyAbsent.has_origin then [Event.gitDeleteRemote "origin"] else []) ++
          [Event.gitAddRemote "origin" (get_gogs_clone_url cfgUser projA.name), Event.gitPush,
           Event.release]),
       .ok ()) :=
  (claim_C6_transfer_procedure cfgUser projA envHappyAbsent).2.1 rfl rfl (by decide) rfl rfl

/-- Claim C1 (amended): in every run that reaches the iteration phase and
in which every full-detail fetch succeeds, the loop completes and every
enumerated project yields exactly one outcome: the successes plus the
failures count up to the enumerated project count and the two sequences
together are a permutation of the project names.  (As originally stated
the claim fails: a detail-fetch failure aborts the whole run, see the
counterexample.) -/
theorem claim_C1_one_outcome_per_project (cfg : Config) (prs : List ProjectRun)
    (h : ∀ pr ∈ prs, pr.fetch.isOk = true) :
    ∃ succ failed, runLoop cfg prs = .ok (succ, failed) ∧
      succ.length + failed.length = prs.length ∧
      (succ ++ failed.map Prod.fst).Perm (prs.map fetchName) := by
  refine ⟨_, _, runLoop_of_fetches_ok cfg prs h, ?_, ?_⟩
  · have hp := (filter_partition_perm (fun pr => transferFailed cfg pr) prs).length_eq
    rw [List.length_append] at hp
    simpa [List.length_map] using hp
  · have hp := filter_partition_perm (fun pr => transferFailed cfg pr) prs
    rw [List.map_map]
    have hcomp :
        (Prod.fst ∘ fun pr => (fetchName pr, transferError cfg pr)) = fetchName := rfl
    rw [hcomp, ← List.map_append]
    exact hp.map fetchName

/-- Witness for C1 on a concrete two-project list with one failing
transfer. -/
theorem claim_C1_one_outcome_per_project_witness :
    ∃ succ failed,
      runLoop cfgUser
        [{ fetch := .ok projA, env := envHappyAbsent },
         { fetch := .ok projB, env := envCloneFail }] = .ok (succ, failed) ∧
      succ.length + failed.length = 2 ∧
      (succ ++ failed.map Prod.fst).Perm
        ([{ fetch := .ok projA, env := envHappyAbsent },
          { fetch := .ok projB, env := envCloneFail }].map fetchName) :=
  claim_C1_one_outcome_per_project cfgUser
    [{ fetch := .ok projA, env := envHappyAbsent },
     { fetch := .ok projB, env := envCloneFail }] (by decide)

/-- Counterexample to C1 as stated: a run that reaches the iteration phase
with one enumerated project whose full-detail fetch fails produces no
completed summary at all — the project yields no SyncOutcome and the run
aborts, so the success count plus failure count does not equal the
enumerated count. -/
theorem claim_C1_counterexample :
    run cfgUser (.ok [{ fetch := .error "boom", env := envHappyAbsent }]) =
      .aborted "boom" ∧
    ∀ succ failed,
      run cfgUser (.ok [{ fetch := .error "boom", env := envHappyAbsent }]) ≠
        .completed succ failed := by
  refine ⟨rfl, ?_⟩
  intro succ failed hcontra
  rw [show run cfgUser (.ok [{ fetch := .error "boom", env := envHappyAbsent }]) =
        .aborted "boom" from rfl] at hcontra
  exact RunResult.noConfusion hcontra

/-- Claim C2: per-item failure isolation — when every detail fetch
succeeds, the loop never aborts; each failing transfer is recorded in the
failed list and iteration continues, so the two lists report every
project; any failing project makes the final exit status 1 and appears in
the summary, which lists exactly the failing projects; a run with no
failing project exits 0. -/
theorem claim_C2_failure_isolation (cfg : Config) (prs : List ProjectRun)
    (h : ∀ pr ∈ prs, pr.fetch.isOk = true) :
    ∃ succ failed, runLoop cfg prs = .ok (succ, failed) ∧
      succ = (prs.filter fun pr => !transferFailed cfg pr).map fetchName ∧
      failed.map Prod.fst = (prs.filter fun pr => transferFailed cfg pr).map fetchName ∧
      (∀ pr ∈ prs, transferFailed cfg pr = true →
        fetchName pr ∈ failed.map Prod.fst ∧
        runExit (.completed succ failed) = 1) ∧
      ((∀ pr ∈ prs, transferFailed cfg pr = false) →
        runExit (.completed succ failed) = 0) := by
  refine ⟨_, _, runLoop_of_fetches_ok cfg prs h, rfl, ?_, ?_, ?_⟩
  · rw [List.map_map]
    rfl
  · intro pr hmem hfail
    have hfilter : pr ∈ prs.filter fun q => transferFailed cfg q :=
      List.mem_filter.mpr ⟨hmem, hfail⟩
    constructor
    · rw [List.map_map]
      exact List.mem_map_of_mem _ hfilter
    · have hne :
          ((prs.filter fun q => transferFailed cfg q).map
            fun q => (fetchName q, transferError cfg q)) ≠ [] := by
        intro hnil
        rw [List.map_eq_nil_iff] at hnil
        rw [hnil] at hfilter
        exact List.not_mem_nil pr hfilter
      simp [runExit, hne]
  · intro hall
    have hnil : (prs.filter fun q => transferFailed cfg q) = [] := by
      rw [List.filter_eq_nil_iff]
      intro q hq
      simp [hall q hq]
    simp [runExit, hnil]

/-- Witness for C2: three projects where the second one fails at the clone
step; the summary lists exactly the failing project and the exit status
is 1. -/
theorem claim_C2_failure_isolation_witness :
    ∃ succ failed,
      runLoop cfgUser
        [{ fetch := .ok projA, env := envHappyAbsent },
         { fetch := .ok projB, env := envCloneFail },
         { fetch := .ok projC, env := envHappyAbsent }] = .ok (succ, failed) ∧
      succ =
        ([{ fetch := .ok projA, env := envHappyAbsent },
          { fetch := .ok projB, env := envCloneFail },
          { fetch := .ok projC, env := envHappyAbsent }].filter
            fun pr => !transferFailed cfgUser pr).map fetchName ∧
      failed.map Prod.fst =
        ([{ fetch := .ok projA, env := envHappyAbsent },
          { fetch := .ok projB, env := envCloneFail },
          { fetch := .ok projC, env := envHappyAbsent }].filter
            fun pr => transferFailed cfgUser pr).map fetchName ∧
      fetchName { fetch := .ok projB, env := envCloneFail } ∈ failed.map Prod.fst ∧
      runExit (.completed succ failed) = 1 := by
  obtain ⟨succ, failed, h1, h2, h3, h4, h5⟩ :=
    claim_C2_failure_isolation cfgUser
      [{ fetch := .ok projA, env := envHappyAbsent },
       { fetch := .ok projB, env := envCloneFail },
       { fetch := .ok projC, env := envHappyAbsent }] (by decide)
  obtain ⟨hmem, hexit⟩ :=
    h4 { fetch := .ok projB, env := envCloneFail } (by simp) (by decide)
  exact ⟨succ, failed, h1, h2, h3, hmem, hexit⟩

/-- Claim C3 (amended): a creation call answered 404 while an organization
is configured is logged with operator context and propagated out of the
transfer, but at the orchestration boundary it is caught and recorded as
an ordinary per-project failure and iteration continues with the next
project; the run then exits 1 at the end of the completed pass because the
failure list is non-empty, not by terminating immediately.  (As originally
stated the claim fails: the process does not terminate at the failing
project, see the counterexample.) -/
theorem claim_C3_org_missing_recorded_not_fatal (cfg : Config) (p : Project)
    (env : TransferEnv) (_horg : cfg.gogs_org ≠ "")
    (hclone : env.clone_result = .ok ()) (hex : env.exists_status = 404)
    (hcreate : env.create_status = 404) :
    (backup_repository cfg p env).2 = .error (.http 404) ∧
    (∀ rest succ failed, runLoop cfg rest = .ok (succ, failed) →
      runLoop cfg ({ fetch := .ok p, env := env } :: rest) =
        .ok (succ, (p.name, .http 404) :: failed)) ∧
    (∀ rest succ failed, runLoop cfg rest = .ok (succ, failed) → failed ≠ [] →
      runExit (run cfg (.ok ({ fetch := .ok p, env := env } :: rest))) = 1) := by
  have hres : (backup_repository cfg p env).2 = .error (.http 404) := by
    simp [backup_repository, backup_body, hclone, hex, hcreate, check_result,
      create_result, Except.map]
  refine ⟨hres, ?_, ?_⟩
  · intro rest succ failed hrest
    simp [runLoop, hrest, hres]
  · intro rest succ failed hrest hne
    simp [run, runLoop, hrest, hres, runExit]

/-- Witness for C3 on a concrete organization configuration. -/
theorem claim_C3_org_missing_recorded_not_fatal_witness :
    (backup_repository cfgOrg projA envOrg404).2 = .error (.http 404) ∧
    runLoop cfgOrg [{ fetch := .ok projA, env := envOrg404 }] =
      .ok ([], [(projA.name, .http 404)]) := by
  obtain ⟨h1, h2, _⟩ :=
    claim_C3_org_missing_recorded_not_fatal cfgOrg projA envOrg404
      (by decide) rfl rfl rfl
  exact ⟨h1, h2 [] [] [] rfl⟩

/-- Counterexample to C3 as stated: with an organization configured and
the creation of the first project answered 404, the run does not
terminate immediately — the second project is still transferred, the 404
is recorded as an ordinary per-project failure, and the pass completes
with a summary. -/
theorem claim_C3_counterexample :
    cfgOrg.gogs_org = "theorg" ∧
    run cfgOrg
      (.ok [{ fetch := .ok projA, env := envOrg404 },
            { fetch := .ok projB, env := envHappyAbsent }]) =
      .completed ["beta"] [("alpha", .http 404)] := by
  exact ⟨rfl, by decide⟩

/-- Claim C5: the process exit status is 0 exactly when construction
succeeded, enumeration succeeded and the completed pass has an empty
failure list — every per-project transfer succeeded — and it is 1 in every
other case (non-empty failure list, configuration error, authentication
error, pre-flight error, enumeration error or mid-run abort); the two
outcomes are the only possible values. -/
theorem claim_C5_exit_status (raw : RawEnv) (auth : Except String Unit)
    (orgStatus : Nat) (enum : Except String (List ProjectRun)) :
    (mainExit raw auth orgStatus enum = 0 ∨ mainExit raw auth orgStatus enum = 1) ∧
    (mainExit raw auth orgStatus enum = 0 ↔
      ∃ cfg prs succ, initBackup raw auth orgStatus = .ok cfg ∧ enum = .ok prs ∧
        runLoop cfg prs = .ok (succ, [])) := by
  cases hinit : initBackup raw auth orgStatus with
  | error e => simp [mainExit, hinit]
  | ok cfg =>
    cases henum : enum with
    | error e => simp [mainExit, run, runExit, hinit, henum]
    | ok prs =>
      cases hrl : runLoop cfg prs with
      | error e => simp [mainExit, run, runExit, hinit, henum, hrl]
      | ok pair =>
        rcases pair with ⟨succ, failed⟩
        by_cases hf : failed = []
        · subst hf
          have hz : mainExit raw auth orgStatus (Except.ok prs) = 0 := by
            simp [mainExit, run, runExit, hinit, hrl]
          exact ⟨Or.inl hz, ⟨fun _ => ⟨cfg, prs, succ, rfl, rfl, hrl⟩, fun _ => hz⟩⟩
        · simp [mainExit, run, runExit, hinit, henum, hrl, hf]

/-- Witness for C5: a clean one-project pass exits 0. -/
theorem claim_C5_exit_status_witness :
    mainExit rawGood (.ok ()) 200
      (.ok [{ fetch := .ok projA, env := envHappyAbsent }]) = 0 :=
  (claim_C5_exit_status rawGood (.ok ()) 200
      (.ok [{ fetch := .ok projA, env := envHappyAbsent }])).2.mpr
    ⟨cfgUser, [{ fetch := .ok projA, env := envHappyAbsent }], ["alpha"],
      by decide, rfl, by decide⟩

/-- Claim C10 (amended): credential embedding replaces every occurrence of
the literal substring of the https prefix, not only a leading one; for
every destination base URL and source clone endpoint containing no such
occurrence at all (for example plain http URLs), the constructed clone
URLs embed no identity or token and are the original URLs unchanged apart
from the appended path — the operations silently produce unauthenticated
URLs rather than failing.  (As originally stated over every URL that
merely does not begin with the prefix, the claim fails: an occurrence in
the middle of the URL still gets credentials injected, see the
counterexample.) -/
theorem claim_C10_credential_embedding (cfg : Config) (p : Project) (name : String)
    (hdst : occursIn "https://".data cfg.gogs_url.data = false)
    (hsrc : occursIn "https://".data p.http_url_to_repo.data = false) :
    get_gogs_clone_url cfg name =
      cfg.gogs_url ++ "/" ++
        (if cfg.gogs_org ≠ "" then cfg.gogs_org ++ "/" ++ name
         else cfg.gogs_username ++ "/" ++ name) ++ ".git" ∧
    get_gitlab_clone_url cfg p = p.http_url_to_repo := by
  constructor
  · simp only [get_gogs_clone_url]
    rw [pyReplace_of_not_occursIn _ _ _ hdst]
  · simp only [get_gitlab_clone_url]
    exact pyReplace_of_not_occursIn _ _ _ hsrc

/-- Witness for C10 on plain-http destination and source URLs. -/
theorem claim_C10_credential_embedding_witness :
    get_gogs_clone_url cfgHttp "delta" =
      cfgHttp.gogs_url ++ "/" ++
        (if cfgHttp.gogs_org ≠ "" then cfgHttp.gogs_org ++ "/" ++ "delta"
         else cfgHttp.gogs_username ++ "/" ++ "delta") ++ ".git" ∧
    get_gitlab_clone_url cfgHttp projHttp = projHttp.http_url_to_repo :=
  claim_C10_credential_embedding cfgHttp projHttp "delta" (by decide) (by decide)

/-- Counterexample to C10 as stated: a destination base URL that does not
begin with the https prefix but contains it in the middle still gets the
username and token injected there, so the constructed URL is neither
unchanged apart from the appended path nor free of the token. -/
theorem claim_C10_counterexample :
    leadsWith "https://".data cfgWeird.gogs_url.data = false ∧
    get_gogs_clone_url cfgWeird "r" = "http://https://u:sekret@h/u/r.git" ∧
    get_gogs_clone_url cfgWeird "r" ≠ cfgWeird.gogs_url ++ "/u/r.git" ∧
    occursIn "sekret".data (get_gogs_clone_url cfgWeird "r").data = true :=
  ⟨by decide, by decide, by decide, by decide⟩

end SpeleoBackup
